import Mathlib

/-!
Verification of the Gobbledegook standalone example program
(src/src/standalone.cpp) against its natural-language specification.

The standalone program is shallowly embedded: the two global data values
become a `ServerData` state record, C pointers become `Option` values whose
payload is the list of bytes readable at the (non-null) pointer, and the
D-Bus side effects of the GATT handlers become explicit `DBusAction` lists.
Library facilities of the Gobbledegook server that are not part of this
repository snapshot (only the standalone example is) are modelled from the
specification; each such definition says so in its doc comment.
-/

namespace Gobbledegook

/-- The bytes readable at a non-null C pointer.  A pointer to a single
`uint8_t` is a one-element list; a pointer to a NUL-terminated C string is
the list of its bytes including the terminating `0`. -/
abbrev Bytes := List Nat

/-- The bytes of an ASCII `std::string` literal. -/
def strBytes (s : String) : Bytes :=
  s.data.map Char.toNat

/-- Reading a C string out of a block of bytes: everything up to (and not
including) the first NUL byte.  This is what `std::string`
assignment from a `const char *` does in `dataSetter`. -/
def cString (p : Bytes) : Bytes :=
  p.takeWhile (fun b => b != 0)

/-- The mutable globals of standalone.cpp that the data bridge serves:
`serverDataBatteryLevel` (a `uint8_t`, initially 78) and
`serverDataTextString` (a `std::string`, initially "Hello, world!").
The string field holds the byte contents of the `std::string`. -/
structure ServerData where
  serverDataBatteryLevel : Nat
  serverDataTextString : Bytes
deriving DecidableEq

/-- The initial values of the two server data globals
(standalone.cpp lines 121 and 124). -/
def initialServerData : ServerData :=
  { serverDataBatteryLevel := 78
    serverDataTextString := strBytes "Hello, world!" }

/-- `dataGetter` (standalone.cpp lines 470-491).  The argument is `none`
for a NULL name.  The result is `none` for a NULL return, otherwise the
bytes readable at the returned borrowed pointer: for "battery/level" a
pointer to the one-byte battery level, for "text/string" the
`c_str()` contents of the text string. -/
def dataGetter (s : ServerData) (pName : Option String) : Option Bytes :=
  match pName with
  | none => none
  | some strName =>
    if strName = "battery/level" then
      some [s.serverDataBatteryLevel]
    else if strName = "text/string" then
      some s.serverDataTextString
    else
      none

/-- `dataSetter` (standalone.cpp lines 499-530).  Returns the updated
globals together with the `int` result (1 = accepted, 0 = rejected).
For "battery/level" the code stores `*static_cast<const uint8_t *>(pData)`,
the first byte at the pointer; for "text/string" it assigns the C string at
the pointer to the `std::string`, copying bytes up to the first NUL. -/
def dataSetter (s : ServerData) (pName : Option String) (pData : Option Bytes) :
    ServerData × Int :=
  match pName with
  | none => (s, 0)
  | some strName =>
    match pData with
    | none => (s, 0)
    | some p =>
      if strName = "battery/level" then
        ({ s with serverDataBatteryLevel := p.headD 0 }, 1)
      else if strName = "text/string" then
        ({ s with serverDataTextString := cString p }, 1)
      else
        (s, 0)

/-- The externally observable D-Bus effects a GATT handler can produce. -/
inductive DBusAction where
  /-- A method return carrying a byte-array value
  (`methodReturnValue` with a value). -/
  | methodReply : Bytes → DBusAction
  /-- An empty method return (`methodReturnVariant(pInvocation, NULL)`). -/
  | emptyReply : DBusAction
  /-- A `PropertiesChanged` signal whose `Value` is the given byte array
  (`sendChangeNotificationValue`). -/
  | propertiesChanged : Bytes → DBusAction
deriving DecidableEq

/-- Modelled from the spec: `getDataValue<uint8_t>(name, default)` of the
Gobbledegook library (not in this repository snapshot) reads the named
value through the data bridge `get` capability and dereferences the
returned pointer as a `uint8_t`, yielding the default when the bridge
returns nil. -/
def getDataValueU8 (s : ServerData) (name : String) (dflt : Nat) : Nat :=
  match dataGetter s (some name) with
  | some (b :: _) => b
  | _ => dflt

/-- Modelled from the spec: `getDataPointer<const char *>(name, default)`
of the Gobbledegook library (not in this repository snapshot) reads the
named value through the data bridge `get` capability, yielding the
C-string bytes at the returned pointer, or the default when the bridge
returns nil. -/
def getDataPointerStr (s : ServerData) (name : String) (dflt : Bytes) : Bytes :=
  (dataGetter s (some name)).getD dflt

/-- Modelled from the spec: `setDataPointer(name, ptr)` of the
Gobbledegook library (not in this repository snapshot) writes the value at
the pointer back through the data bridge `set` capability. -/
def setDataPointerStr (s : ServerData) (name : String) (p : Bytes) : ServerData :=
  (dataSetter s (some name) (some p)).1

/-- The `onReadValue` handler of characteristic `device/mfgr_name`
(standalone.cpp lines 190-193): replies with the string "Acme Inc." as a
byte array, ignoring all state. -/
def mfgrNameOnReadValue : List DBusAction :=
  [DBusAction.methodReply (strBytes "Acme Inc.")]

/-- The `onReadValue` handler of characteristic `battery/level`
(standalone.cpp lines 230-234): reads the battery level via
`getDataValue<uint8_t>("battery/level", 0)` and replies with that byte. -/
def batteryLevelOnReadValue (s : ServerData) : List DBusAction :=
  [DBusAction.methodReply [getDataValueU8 s "battery/level" 0]]

/-- The `onUpdatedValue` handler of characteristic `battery/level`
(standalone.cpp lines 242-247): reads the then-current battery level via
the data bridge and sends a change notification carrying that byte.  The
handler returns true (authorizing the emission). -/
def batteryLevelOnUpdatedValue (s : ServerData) : List DBusAction :=
  [DBusAction.propertiesChanged [getDataValueU8 s "battery/level" 0]]

/-- The `onReadValue` handler of characteristic `text/string`
(standalone.cpp lines 310-314): reads the text through the data bridge via
`getDataPointer<const char *>("text/string", "")` and replies with its
bytes. -/
def textStringOnReadValue (s : ServerData) : List DBusAction :=
  [DBusAction.methodReply (getDataPointerStr s "text/string" [])]

/-- The `onUpdatedValue` handler of characteristic `text/string`
(standalone.cpp lines 338-343): reads the then-current text through the
data bridge and sends a change notification carrying its bytes, returning
true. -/
def textStringOnUpdatedValue (s : ServerData) : List DBusAction :=
  [DBusAction.propertiesChanged (getDataPointerStr s "text/string" [])]

/-- The `onWriteValue` handler of characteristic `text/string`
(standalone.cpp lines 317-332): converts the written byte array to a
`std::string` (whose `c_str()` exposes the bytes followed by a NUL),
commits it through the data bridge under key "text/string", forwards to
its own `onUpdatedValue` handler, and finally enqueues an empty method
return.  Returns the updated state and the emitted actions in order. -/
def textStringOnWriteValue (s : ServerData) (bytes : Bytes) :
    ServerData × List DBusAction :=
  let s1 := setDataPointerStr s "text/string" (bytes ++ [0])
  (s1, textStringOnUpdatedValue s1 ++ [DBusAction.emptyReply])

/-- A descriptor declaration of the configured GATT tree. -/
structure GattDescriptorDecl where
  name : String
  uuid : String
  flags : List String
deriving DecidableEq

/-- A characteristic declaration of the configured GATT tree. -/
structure GattCharacteristicDecl where
  name : String
  uuid : String
  flags : List String
  descriptors : List GattDescriptorDecl
deriving DecidableEq

/-- A service declaration of the configured GATT tree. -/
structure GattServiceDecl where
  name : String
  uuid : String
  characteristics : List GattCharacteristicDecl
deriving DecidableEq

/-- The GATT tree declared by `serverConfigurator`
(standalone.cpp lines 177-462): the names, UUIDs and flags of every
`gattServiceBegin` / `gattCharacteristicBegin` / `gattDescriptorBegin`
call, in declaration order. -/
def serverTree : List GattServiceDecl :=
  [ { name := "device", uuid := "180A",
      characteristics :=
        [ { name := "mfgr_name", uuid := "2A29", flags := ["read"], descriptors := [] }
        , { name := "model_num", uuid := "2A24", flags := ["read"], descriptors := [] } ] }
  , { name := "battery", uuid := "180F",
      characteristics :=
        [ { name := "level", uuid := "2A19", flags := ["read", "notify"], descriptors := [] } ] }
  , { name := "time", uuid := "1805",
      characteristics :=
        [ { name := "current", uuid := "2A2B", flags := ["read", "notify"], descriptors := [] }
        , { name := "local", uuid := "2A0F", flags := ["read"], descriptors := [] } ] }
  , { name := "text", uuid := "00000001-1E3C-FAD4-74E2-97A033F1BFAA",
      characteristics :=
        [ { name := "string", uuid := "00000002-1E3C-FAD4-74E2-97A033F1BFAA",
            flags := ["read", "write", "notify"],
            descriptors := [ { name := "description", uuid := "2901", flags := ["read"] } ] } ] }
  , { name := "ascii_time", uuid := "00000001-1E3D-FAD4-74E2-97A033F1BFEE",
      characteristics :=
        [ { name := "string", uuid := "00000002-1E3D-FAD4-74E2-97A033F1BFEE",
            flags := ["read"],
            descriptors := [ { name := "description", uuid := "2901", flags := ["read"] } ] } ] }
  , { name := "cpu", uuid := "0000B001-1E3D-FAD4-74E2-97A033F1BFEE",
      characteristics :=
        [ { name := "count", uuid := "0000B002-1E3D-FAD4-74E2-97A033F1BFEE",
            flags := ["read"],
            descriptors := [ { name := "description", uuid := "2901", flags := ["read"] } ] }
        , { name := "model", uuid := "0000B003-1E3D-FAD4-74E2-97A033F1BFEE",
            flags := ["read"],
            descriptors := [ { name := "description", uuid := "2901", flags := ["read"] } ] } ] } ]

/-- Look up a characteristic of the configured tree by service name and
characteristic name. -/
def findChar (svcName charName : String) : Option GattCharacteristicDecl :=
  match serverTree.find? (fun svc => svc.name == svcName) with
  | some svc => svc.characteristics.find? (fun c => c.name == charName)
  | none => none

/-- The D-Bus path the main loop passes to `ggkNofifyUpdatedCharacteristic`
on every iteration (standalone.cpp line 599). -/
def batteryLoopNotifyPath : String := "/com/gobbledegook/battery/level"

/-- One battery-level update of the main loop (standalone.cpp line 598):
`serverDataBatteryLevel = std::max(serverDataBatteryLevel - 1, 0)`.
The `uint8_t` is promoted to `int` before the subtraction, so at 0 the
subtraction yields -1 and `std::max` clamps it back to 0; the assignment
back into the `uint8_t` truncates mod 256. -/
def batteryTick (x : Nat) : Nat :=
  (max ((x : Int) - 1) 0).toNat % 256

/-- `n` iterations of the main waiting loop (standalone.cpp lines 594-600)
starting from battery level `x`: each iteration applies `batteryTick` and
then calls `ggkNofifyUpdatedCharacteristic` on the battery-level path.
Returns the final level and the list of notify calls made, in order. -/
def batteryLoopRun : Nat → Nat → Nat × List String
  | 0, x => (x, [])
  | n + 1, x =>
    let x1 := batteryTick x
    let rest := batteryLoopRun n x1
    (rest.1, batteryLoopNotifyPath :: rest.2)

/-- The log levels of standalone.cpp (lines 130-136). -/
inductive LogLevel where
  | Debug
  | Verbose
  | Normal
  | ErrorsOnly
deriving DecidableEq

/-- One step of the command-line loop of `main`
(standalone.cpp lines 539-561): each recognised flag overwrites the log
level; an unrecognised argument makes `main` return -1 at once, before
`ggkStart` is ever called (`none`). -/
def parseArgsLoop (lvl : LogLevel) : List String → Option LogLevel
  | [] => some lvl
  | a :: rest =>
    if a = "-q" then parseArgsLoop LogLevel.ErrorsOnly rest
    else if a = "-v" then parseArgsLoop LogLevel.Verbose rest
    else if a = "-d" then parseArgsLoop LogLevel.Debug rest
    else none

/-- The whole command-line parse of `main` over the arguments after the
program name, starting from the default level `Normal`
(standalone.cpp line 139).  `none` means `main` returned -1 without
starting the server. -/
def parseArgs (args : List String) : Option LogLevel :=
  parseArgsLoop LogLevel.Normal args

/-- Whether an argument is one of the three recognised flags. -/
def isKnownFlag (a : String) : Bool :=
  a == "-q" || a == "-v" || a == "-d"

/-- The log level a single recognised flag selects, overwriting the
previous level (last flag wins). -/
def applyFlag (lvl : LogLevel) (a : String) : LogLevel :=
  if a = "-q" then LogLevel.ErrorsOnly
  else if a = "-v" then LogLevel.Verbose
  else if a = "-d" then LogLevel.Debug
  else lvl

/-- The server health values of the public facade (`GGKServerHealth`). -/
inductive ServerHealth where
  | EOk
  | EFailedInit
  | EFailedRun
deriving DecidableEq

/-- The exit path of `main` after successful argument parsing
(standalone.cpp lines 586-609): -1 when `ggkStart` returns false, -1 when
`ggkWait` returns false, otherwise 0 when `ggkGetServerHealth()` is `EOk`
and 1 when it is not. -/
def mainExitCode (startOk waitOk : Bool) (health : ServerHealth) : Int :=
  if startOk = false then -1
  else if waitOk = false then -1
  else if health = ServerHealth.EOk then 0
  else 1

/-! ## Helper lemmas -/

/-- Appending the terminating NUL of `c_str()` does not change the C string
read back out of the bytes. -/
theorem cString_append_zero (bs : Bytes) : cString (bs ++ [0]) = cString bs := by
  induction bs with
  | nil => rfl
  | cons b t ih =>
    simp only [cString, List.cons_append, List.takeWhile_cons] at *
    split <;> simp [ih]

/-- For any value a `uint8_t` can hold, the battery update of the main
loop is truncated subtraction by one. -/
theorem batteryTick_of_le (x : Nat) (hx : x ≤ 255) : batteryTick x = x - 1 := by
  unfold batteryTick
  rcases x with _ | k
  · decide
  · rw [show ((k + 1 : Nat) : Int) - 1 = (k : Int) by push_cast; ring,
        max_eq_left (by positivity)]
    simp only [Int.toNat_natCast, Nat.succ_sub_one]
    exact Nat.mod_eq_of_lt (by omega)

/-- Closed form of the main waiting loop: after `n` iterations from a
`uint8_t` level `x`, the level is `x - n` (truncated subtraction) and the
loop has made exactly one notify call per iteration. -/
theorem batteryLoopRun_spec (n : Nat) : ∀ x, x ≤ 255 →
    batteryLoopRun n x = (x - n, List.replicate n batteryLoopNotifyPath) := by
  induction n with
  | zero => intro x _; simp [batteryLoopRun]
  | succ m ih =>
    intro x hx
    have ht : batteryTick x = x - 1 := batteryTick_of_le x hx
    have hr := ih (x - 1) (by omega)
    simp only [batteryLoopRun, ht, hr, List.replicate_succ]
    rw [show x - 1 - m = x - (m + 1) by omega]

/-- Closed form of the command-line loop: it yields the fold of the
recognised flags over the starting level when every argument is a
recognised flag, and `none` (exit -1 before `ggkStart`) otherwise. -/
theorem parseArgsLoop_spec (args : List String) : ∀ lvl,
    parseArgsLoop lvl args =
      if args.all isKnownFlag then some (args.foldl applyFlag lvl) else none := by
  induction args with
  | nil => intro lvl; rfl
  | cons a rest ih =>
    intro lvl
    by_cases hq : a = "-q"
    · subst hq; simp [parseArgsLoop, isKnownFlag, applyFlag, ih]
    · by_cases hv : a = "-v"
      · subst hv; simp [parseArgsLoop, isKnownFlag, applyFlag, ih]
      · by_cases hd : a = "-d"
        · subst hd; simp [parseArgsLoop, isKnownFlag, applyFlag, ih]
        · simp [parseArgsLoop, isKnownFlag, hq, hv, hd]

/-! ## Claims -/

/-- Claim C1: the text characteristic is declared with flags
{read, write, notify} and initial data-source value "Hello, world!"; after
a central writes the bytes 48 69 through the `onWriteValue` handler (which
commits them through the data bridge under key "text/string"), the data
bridge holds exactly those bytes and the next `onReadValue` replies with
the bytes 48 69. -/
theorem textWriteRoundTrip :
    (findChar "text" "string").map GattCharacteristicDecl.flags =
      some ["read", "write", "notify"] ∧
    initialServerData.serverDataTextString = strBytes "Hello, world!" ∧
    dataGetter (textStringOnWriteValue initialServerData [0x48, 0x69]).1
      (some "text/string") = some [0x48, 0x69] ∧
    textStringOnReadValue (textStringOnWriteValue initialServerData [0x48, 0x69]).1 =
      [DBusAction.methodReply [0x48, 0x69]] :=
  ⟨rfl, rfl, rfl, rfl⟩

/-- Claim C2: starting from the initial battery level 78, after `n`
iterations of the main waiting loop the level is `78 - n` (truncated
subtraction): it drops by exactly 1 per iteration until it reaches 0 and
then stays 0 forever, never wrapping to 255, while the loop keeps making
exactly one `ggkNofifyUpdatedCharacteristic` call on the battery-level
path on every iteration. -/
theorem batteryTickerClamp (n : Nat) :
    (batteryLoopRun n 78).1 = 78 - n ∧
    batteryTick 0 = 0 ∧
    (batteryLoopRun n 78).2 = List.replicate n batteryLoopNotifyPath := by
  have h := batteryLoopRun_spec n 78 (by omega)
  exact ⟨by rw [h], by decide, by rw [h]⟩

/-- Claim C3: for each of the two known keys, a `dataSetter` call with a
non-null data pointer is accepted (returns 1) and a subsequent
`dataGetter` on the same key returns non-null storage holding exactly the
written value: the single byte `*p` for "battery/level", the C string at
`p` for "text/string". -/
theorem dataBridgeRoundTrip (s : ServerData) (p : Bytes) (hp : p ≠ []) :
    ((dataSetter s (some "battery/level") (some p)).2 = 1 ∧
      dataGetter (dataSetter s (some "battery/level") (some p)).1
        (some "battery/level") = some [p.head hp]) ∧
    ((dataSetter s (some "text/string") (some p)).2 = 1 ∧
      dataGetter (dataSetter s (some "text/string") (some p)).1
        (some "text/string") = some (cString p)) := by
  rcases p with _ | ⟨b, t⟩
  · exact absurd rfl hp
  · exact ⟨⟨rfl, rfl⟩, ⟨rfl, rfl⟩⟩

/-- Witness for C3 at the concrete pointer contents [72, 105]. -/
theorem dataBridgeRoundTrip_witness :
    (([72, 105] : Bytes) ≠ []) ∧
    (((dataSetter initialServerData (some "battery/level") (some [72, 105])).2 = 1 ∧
      dataGetter (dataSetter initialServerData (some "battery/level") (some [72, 105])).1
        (some "battery/level") = some [72]) ∧
     ((dataSetter initialServerData (some "text/string") (some [72, 105])).2 = 1 ∧
      dataGetter (dataSetter initialServerData (some "text/string") (some [72, 105])).1
        (some "text/string") = some [72, 105])) :=
  ⟨by decide, dataBridgeRoundTrip initialServerData [72, 105] (by decide)⟩

/-- Claim C4: `dataGetter` returns nil for a NULL name and for any unknown
name; `dataSetter` returns 0 for a NULL name, a NULL data pointer, or an
unknown name, and in every such rejecting case leaves both stored values
unchanged (the returned state is exactly the input state).  Both
definitions are total Lean functions, so no case aborts. -/
theorem dataBridgeFailure (s : ServerData) (n : String) (p : Bytes)
    (hb : n ≠ "battery/level") (ht : n ≠ "text/string") :
    dataGetter s none = none ∧
    dataGetter s (some n) = none ∧
    dataSetter s none (some p) = (s, 0) ∧
    dataSetter s (some n) none = (s, 0) ∧
    dataSetter s (some "battery/level") none = (s, 0) ∧
    dataSetter s (some "text/string") none = (s, 0) ∧
    dataSetter s (some n) (some p) = (s, 0) := by
  refine ⟨rfl, ?_, rfl, rfl, rfl, rfl, ?_⟩ <;> simp [dataGetter, dataSetter, hb, ht]

/-- Witness for C4 at the unknown key "does/not/exist". -/
theorem dataBridgeFailure_witness :
    (("does/not/exist" : String) ≠ "battery/level" ∧
     ("does/not/exist" : String) ≠ "text/string") ∧
    (dataGetter initialServerData none = none ∧
     dataGetter initialServerData (some "does/not/exist") = none ∧
     dataSetter initialServerData none (some [0]) = (initialServerData, 0) ∧
     dataSetter initialServerData (some "does/not/exist") none = (initialServerData, 0) ∧
     dataSetter initialServerData (some "battery/level") none = (initialServerData, 0) ∧
     dataSetter initialServerData (some "text/string") none = (initialServerData, 0) ∧
     dataSetter initialServerData (some "does/not/exist") (some [0]) =
       (initialServerData, 0)) :=
  ⟨⟨by decide, by decide⟩,
   dataBridgeFailure initialServerData "does/not/exist" [0] (by decide) (by decide)⟩

/-- Claim C5: the battery characteristic is declared as 2A19 with flags
{read, notify} and initial data-source value 78; after the application
sets battery/level to 77 through the data bridge, the update handler run
by `notifyUpdatedCharacteristic` reads the then-current value through the
bridge and emits exactly one `PropertiesChanged` carrying Value = [0x4D]. -/
theorem batteryNotifyValue :
    (findChar "battery" "level").map (fun c => (c.uuid, c.flags)) =
      some ("2A19", ["read", "notify"]) ∧
    initialServerData.serverDataBatteryLevel = 78 ∧
    batteryLevelOnUpdatedValue
        (dataSetter initialServerData (some "battery/level") (some [77])).1 =
      [DBusAction.propertiesChanged [0x4D]] :=
  ⟨rfl, rfl, rfl⟩

/-- Claim C6: the text characteristic is write-capable without
write-without-response, and on every invocation of its `onWriteValue`
handler, for any prior state and any written bytes, the handler commits
the written value (the stored text becomes the C string of the written
bytes), forwards to its own `onUpdatedValue` handler on the committed
state, and finally enqueues an empty method return — so a reply is sent on
every write. -/
theorem textWriteReplyObligation (s : ServerData) (bytes : Bytes) :
    ((findChar "text" "string").map GattCharacteristicDecl.flags =
        some ["read", "write", "notify"] ∧
      "write" ∈ (["read", "write", "notify"] : List String) ∧
      "write-without-response" ∉ (["read", "write", "notify"] : List String)) ∧
    (textStringOnWriteValue s bytes).1.serverDataTextString = cString bytes ∧
    (textStringOnWriteValue s bytes).2 =
      textStringOnUpdatedValue (textStringOnWriteValue s bytes).1 ++
        [DBusAction.emptyReply] := by
  refine ⟨by decide, ?_, rfl⟩
  simp [textStringOnWriteValue, setDataPointerStr, dataSetter, cString_append_zero]

/-- Claim C7: the configured tree declares service 180A containing
characteristic 2A29 with flag {read}, and the `onReadValue` handler of
that characteristic — a constant, independent of any state or request —
replies with exactly the byte array 41 63 6d 65 20 49 6e 63 2e, the ASCII
bytes of "Acme Inc.". -/
theorem deviceInfoRead :
    (serverTree.find? (fun svc => svc.uuid == "180A")).map GattServiceDecl.name =
      some "device" ∧
    (findChar "device" "mfgr_name").map (fun c => (c.uuid, c.flags)) =
      some ("2A29", ["read"]) ∧
    mfgrNameOnReadValue =
      [DBusAction.methodReply [0x41, 0x63, 0x6d, 0x65, 0x20, 0x49, 0x6e, 0x63, 0x2e]] :=
  ⟨rfl, rfl, rfl⟩

/-- Claim C8: under the facade contract that `ggkWait` returns true
exactly when the final health is `EOk`, and that a failed `ggkStart`
implies a non-`EOk` health, the exit code of `main` is 0 exactly when the
final server health is `EOk`; specifically it is -1 when `ggkStart` fails,
-1 when `ggkWait` returns false, and otherwise 0 for `EOk` and 1 for any
other health. -/
theorem exitCodes (startOk waitOk : Bool) (health : ServerHealth)
    (hwait : waitOk = decide (health = ServerHealth.EOk))
    (hstart : startOk = false → health ≠ ServerHealth.EOk) :
    (mainExitCode startOk waitOk health = 0 ↔ health = ServerHealth.EOk) ∧
    (startOk = false → mainExitCode startOk waitOk health = -1) ∧
    (waitOk = false → mainExitCode startOk waitOk health = -1) ∧
    (startOk = true → waitOk = true →
      mainExitCode startOk waitOk health =
        if health = ServerHealth.EOk then 0 else 1) := by
  subst hwait
  revert hstart
  cases startOk <;> cases health <;> decide

/-- Witness for C8 at a successful run with health `EOk`. -/
theorem exitCodes_witness :
    ((true : Bool) = decide (ServerHealth.EOk = ServerHealth.EOk)) ∧
    ((mainExitCode true true ServerHealth.EOk = 0 ↔
        ServerHealth.EOk = ServerHealth.EOk) ∧
     (true = false → mainExitCode true true ServerHealth.EOk = -1) ∧
     (true = false → mainExitCode true true ServerHealth.EOk = -1) ∧
     (true = true → true = true →
       mainExitCode true true ServerHealth.EOk =
         if ServerHealth.EOk = ServerHealth.EOk then 0 else 1)) :=
  ⟨by decide, exitCodes true true ServerHealth.EOk (by decide) (by decide)⟩

/-- Claim C9: the command-line parse of `main` succeeds exactly when every
argument after the program name is one of "-q", "-v", "-d" (otherwise
`main` returns -1 before `ggkStart` is called, modelled as `none`); on
success the final level is the left fold of the flags over the default
`Normal`, and each recognised flag overwrites any previous level — so the
last flag wins and the level is `Normal` when no flag is given. -/
theorem commandLineParsing (args : List String) (lvl : LogLevel) :
    parseArgs args =
      (if args.all isKnownFlag then some (args.foldl applyFlag LogLevel.Normal)
       else none) ∧
    applyFlag lvl "-q" = LogLevel.ErrorsOnly ∧
    applyFlag lvl "-v" = LogLevel.Verbose ∧
    applyFlag lvl "-d" = LogLevel.Debug ∧
    parseArgs [] = some LogLevel.Normal :=
  ⟨parseArgsLoop_spec args LogLevel.Normal, rfl, rfl, rfl, rfl⟩

/-- Claim C10: a successful `dataSetter` call on "battery/level" returns 1
and leaves the stored text string unchanged, and a successful `dataSetter`
call on "text/string" returns 1 and leaves the stored battery level
unchanged. -/
theorem dataSetterFrame (s : ServerData) (p : Bytes) :
    ((dataSetter s (some "battery/level") (some p)).2 = 1 ∧
     (dataSetter s (some "battery/level") (some p)).1.serverDataTextString =
       s.serverDataTextString) ∧
    ((dataSetter s (some "text/string") (some p)).2 = 1 ∧
     (dataSetter s (some "text/string") (some p)).1.serverDataBatteryLevel =
       s.serverDataBatteryLevel) :=
  ⟨⟨rfl, rfl⟩, ⟨rfl, rfl⟩⟩

end Gobbledegook
